import Mathlib

/-!
Verification of the NewsTrace market-outcome tracking and weight-evolution
core.  The definitions below are a shallow embedding of the Python sources
src/market_tracker.py, src/tracking_scheduler.py, src/weight_evolver.py and
src/strategy_updater.py: prices, returns and weights are modelled as exact
rationals, database rows as Lean structures, and each batch operation as a
pure state-passing function.  Theorems at the end of the file settle the
spec claims C1 to C10 against these definitions.
-/

namespace NewsTrace

/-- Python truthiness of an Optional[float] column value: None and 0.0 are
falsy, every other float is truthy. -/
def pyTruthy : Option ℚ → Bool
  | none => false
  | some q => decide (q ≠ 0)

/-- One row of the market_tracking table (src/market_tracker.py).  The
price_tk column is paired with a Boolean recording whether the matching
tk_timestamp column is set (the code only ever tests the timestamps for
NULL, never their value).  Dates are day numbers, so that the day offset
datetime.now().date() - t0_timestamp.date() is integer subtraction.  The
expectedCloseDate column belongs to the scheduler variant of the schema
(src/tracking_scheduler.py and spec section 4.1); MarketTracker never
reads it, which is exactly what claim C2 is about. -/
structure Tracking where
  trackingId : Nat
  newsId : String
  ticker : String
  priceT0 : Option ℚ
  priceT1 : Option ℚ
  priceT3 : Option ℚ
  priceT7 : Option ℚ
  t0Date : Int
  t1Stamp : Bool
  t3Stamp : Bool
  t7Stamp : Bool
  expectedCloseDate : Int
  marketRegime : String
  status : String
  maxDrawdown : Option ℚ
  finalPnl : Option ℚ
  deriving DecidableEq, Repr

/-- The non-NULL entries of [price_t0, price_t1, price_t3, price_t7], in
column order, as read back by MarketTracker._calculate_and_save_metrics. -/
def capturedPrices (t : Tracking) : List ℚ :=
  [t.priceT0, t.priceT1, t.priceT3, t.priceT7].filterMap id

/-- MarketTracker._calculate_and_save_metrics: fold min over the fractional
deviations from t0 starting at 0, and the final PnL from t7.  When fewer
than two prices are captured the function returns without writing; when
price_t0 is NULL or zero the Python computation raises (TypeError or
ZeroDivisionError), the exception is caught by the caller and the row is
left as written so far, which the embedding renders as the identity. -/
def calcMetrics (t : Tracking) : Tracking :=
  let prices := capturedPrices t
  if prices.length < 2 then t
  else
    match t.priceT0 with
    | none => t
    | some t0 =>
      if t0 = 0 then t
      else
        let md := prices.foldl (fun acc p => min acc ((p - t0) / t0)) 0
        let pnl := if (pyTruthy t.priceT7 && pyTruthy t.priceT0) = true
          then (t.priceT7.getD 0 - t0) / t0 else 0
        { t with maxDrawdown := some md, finalPnl := some pnl }

/-- A drawdown alert message assembled by
MarketTracker._trigger_drawdown_alert. -/
structure AlertMsg where
  alertType : String
  ticker : String
  newsId : String
  entryPrice : ℚ
  currentPrice : ℚ
  returnPct : ℚ
  deriving DecidableEq, Repr

/-- The per-task body of MarketTracker.update_all_prices.  g is the price
read (MarketTracker._get_current_price never raises: on any failure it
returns the static fallback 100.0, so it is a total function of the
ticker), today the current date.  Returns the updated row and the alerts
raised.  Note that the snapshot writes at day offsets 1, 3 and 7 are
unconditional: the code never checks whether the checkpoint column is
already set. -/
def updateTask (g : String → ℚ) (today : Int) (t : Tracking) :
    Tracking × List AlertMsg :=
  if t.status = "active" then
    let dayOffset := today - t.t0Date
    let currentPrice := g t.ticker
    if dayOffset = 1 then
      let t1 := { t with priceT1 := some currentPrice, t1Stamp := true }
      match t.priceT0 with
      | some p0 =>
        if 0 < p0 ∧ (currentPrice - p0) / p0 < -(3/100) then
          (t1, [{ alertType := "T+1回撤预警", ticker := t.ticker,
                  newsId := t.newsId, entryPrice := p0,
                  currentPrice := currentPrice,
                  returnPct := (currentPrice - p0) / p0 }])
        else (t1, [])
      | none => (t1, [])
    else if dayOffset = 3 then
      let t3 := { t with priceT3 := some currentPrice, t3Stamp := true }
      match t.priceT0 with
      | some p0 =>
        if 0 < p0 ∧ (currentPrice - p0) / p0 < -(5/100) then
          (t3, [{ alertType := "T+3严重回撤", ticker := t.ticker,
                  newsId := t.newsId, entryPrice := p0,
                  currentPrice := currentPrice,
                  returnPct := (currentPrice - p0) / p0 }])
        else (t3, [])
      | none => (t3, [])
    else if dayOffset = 7 then
      let t7 := { t with priceT7 := some currentPrice, t7Stamp := true }
      (calcMetrics t7, [])
    else (t, [])
  else (t, [])

/-- MarketTracker.update_all_prices: apply the per-task update to every
active row (the SQL selects status = active; updateTask leaves other rows
unchanged) and collect the raised alerts. -/
def updateAllPrices (g : String → ℚ) (today : Int) (st : List Tracking) :
    List Tracking × List AlertMsg :=
  st.foldr
    (fun t acc =>
      let r := updateTask g today t
      (r.1 :: acc.1, r.2 ++ acc.2))
    ([], [])

/-- The per-row body of MarketTracker.check_and_close_completed: the SQL
selects status = active AND t7_timestamp IS NOT NULL, then Python closes
the row when price_t7 and price_t0 are both truthy, writing final_pnl.
The expected_close_date column is never consulted. -/
def closeTask (t : Tracking) : Tracking :=
  if t.status = "active" ∧ t.t7Stamp = true then
    match t.priceT7, t.priceT0 with
    | some p7, some p0 =>
      if p7 ≠ 0 ∧ p0 ≠ 0 then
        { t with status := "closed", finalPnl := some ((p7 - p0) / p0) }
      else t
    | _, _ => t
  else t

/-- MarketTracker.check_and_close_completed over the whole table. -/
def checkAndCloseCompleted (st : List Tracking) : List Tracking :=
  st.map closeTask

/-- The columns of the INSERT in MarketTracker.create_tracking. -/
structure InsertedTracking where
  newsId : String
  ticker : String
  priceT0 : ℚ
  marketRegime : String
  status : String
  deriving DecidableEq, Repr

/-- MarketTracker._get_current_price: quote models the tushare realtime
read, where none stands for both an empty result set and a raised
exception; in either case the code logs and returns the simulated
fallback price 100.0, so the function never fails. -/
def getCurrentPrice (quote : String → Option ℚ) (ticker : String) : ℚ :=
  match quote ticker with
  | some p => p
  | none => 100

/-- MarketTracker.create_tracking: one INSERT per ticker inside a
per-ticker try/except.  insertOk models whether the database insert for
that ticker succeeds; on failure the exception is logged and the ticker
skipped, the loop continuing with the rest.  The price read itself cannot
fail (see getCurrentPrice). -/
def createTracking (quote : String → Option ℚ) (insertOk : String → Bool)
    (newsId : String) (tickers : List String) (regime : String) :
    List InsertedTracking :=
  tickers.foldr
    (fun tk acc =>
      if insertOk tk then
        { newsId := newsId, ticker := tk,
          priceT0 := getCurrentPrice quote tk,
          marketRegime := regime, status := "active" } :: acc
      else acc)
    []

/-- Round-half-to-even of a rational to an integer, the semantics of the
Python builtin round on an exact value. -/
def roundHalfEven (q : ℚ) : ℤ :=
  if q - ⌊q⌋ < 1/2 then ⌊q⌋
  else if 1/2 < q - ⌊q⌋ then ⌊q⌋ + 1
  else if ⌊q⌋ % 2 = 0 then ⌊q⌋ else ⌊q⌋ + 1

/-- Python round(q, 4). -/
def round4 (q : ℚ) : ℚ := (roundHalfEven (q * 10000) : ℚ) / 10000

/-- Python round(q, 2). -/
def round2 (q : ℚ) : ℚ := (roundHalfEven (q * 100) : ℚ) / 100

/-- The fields of the news.ai_audit_result JSON document that
WeightEvolver._get_evolution_samples reads (with dict.get defaults
already applied). -/
structure AuditResult where
  score : ℚ
  detectedFeatures : List String
  deriving DecidableEq, Repr

/-- The columns of a market_tracking row consulted by WeightEvolver:
price_t0, price_t3, the t3_timestamp NULL test, market_regime and the
evolved flag. -/
structure TrackRow where
  newsId : String
  ticker : String
  priceT0 : Option ℚ
  priceT3 : Option ℚ
  t3Stamp : Bool
  marketRegime : String
  evolved : Bool
  deriving DecidableEq, Repr

/-- One feedback sample dict assembled by
WeightEvolver._get_evolution_samples. -/
structure WESample where
  newsId : String
  ticker : String
  aiScore : ℚ
  detectedFeatures : List String
  actualReturnT3 : ℚ
  marketRegime : String
  deriving DecidableEq, Repr

/-- The weight_evolution configuration of WeightEvolver.__init__ with its
defaults. -/
structure WEConfig where
  minSamples : Nat := 30
  accuracyThreshold : ℚ := 55/100
  maxWeightChange : ℚ := 15/100
  decayFactor : ℚ := 9/10
  enabled : Bool := true
  deriving DecidableEq, Repr

/-- The database state seen by WeightEvolver: the append-only
weight_evolution_log snapshots (in insertion order, so the most recent is
the last), the market_tracking rows, and the news table projected to
news_id and ai_audit_result.  A missing entry in news covers both an
absent row (dropped by the JOIN) and a NULL or empty audit document
(falsy in Python, skipped by the truthiness test). -/
structure WEDb where
  weightLog : List (List (String × ℚ))
  tracking : List TrackRow
  news : List (String × AuditResult)
  deriving DecidableEq, Repr

/-- WeightEvolver.default_weights. -/
def defaultWeights : List (String × ℚ) :=
  [("hype_language", -(3/10)), ("policy_demand", 3/20),
   ("logical_rigor", 1/4), ("data_support", 1/5),
   ("uncertainty", -(3/20)), ("source_credibility", 3/20)]

/-- WeightEvolver._load_current_weights: the most recent snapshot of
weight_evolution_log, or the default vector when the log is empty. -/
def loadCurrentWeights (db : WEDb) : List (String × ℚ) :=
  db.weightLog.getLast?.getD defaultWeights

/-- WeightEvolver._get_evolution_samples: select the market_tracking rows
with t3_timestamp set, price_t3 non-NULL and evolved not true, capped at
200 rows (the SELECT orders by t3_timestamp descending; the embedding
takes the stored row order as the query order), join each with its news
row, and keep those whose price_t0, price_t3 and audit document are all
truthy, computing the T+3 return. -/
def getEvolutionSamples (db : WEDb) : List WESample :=
  let rows := (db.tracking.filter
    (fun r => r.t3Stamp && r.priceT3.isSome && !r.evolved)).take 200
  rows.foldr
    (fun r acc =>
      match r.priceT0, r.priceT3, db.news.lookup r.newsId with
      | some t0, some t3, some audit =>
        if t0 ≠ 0 ∧ t3 ≠ 0 then
          { newsId := r.newsId, ticker := r.ticker, aiScore := audit.score,
            detectedFeatures := audit.detectedFeatures,
            actualReturnT3 := (t3 - t0) / t0,
            marketRegime := r.marketRegime } :: acc
        else acc
      | _, _, _ => acc)
    []

/-- WeightEvolver._calculate_accuracy: fraction of samples on which the
direction predicted from the score (above 60 means up) matches the
realized direction (T+3 return above 0.01); 0.5 on an empty batch. -/
def calculateAccuracy (samples : List WESample) : ℚ :=
  if samples = [] then 1/2
  else
    (samples.countP
      (fun s => decide (60 < s.aiScore) == decide (1/100 < s.actualReturnT3))
      : ℚ) / samples.length

/-- WeightEvolver.should_evolve.  now is given as the pair (weekday, hour)
of datetime.now(), with Monday = 0 as in Python.  The accuracy and
no-evolution reason strings render their numbers by toString where the
Python f-string uses percent formatting; only the structure of those two
strings is abstracted, the sample-shortfall reason is rendered exactly. -/
def shouldEvolve (cfg : WEConfig) (db : WEDb) (weekday hour : Nat) :
    Bool × String :=
  if cfg.enabled = false then (false, "权重进化已禁用")
  else
    let samples := getEvolutionSamples db
    let n := samples.length
    if n < cfg.minSamples then
      (false, "样本不足: " ++ toString n ++ "/" ++ toString cfg.minSamples)
    else
      let acc := calculateAccuracy samples
      if acc < cfg.accuracyThreshold then
        (true, "准确率低于阈值: " ++ toString acc ++ " < "
          ++ toString cfg.accuracyThreshold)
      else if weekday = 6 ∧ hour = 2 then (true, "周日定时进化")
      else
        (false, "无需进化: 准确率=" ++ toString acc ++ ", 样本="
          ++ toString n)

/-- The list feature_returns[f] built by
WeightEvolver._analyze_feature_performance: one entry per occurrence of
the feature in a sample (a duplicated feature name within one sample
contributes twice, as in the Python nested loop), in sample order. -/
def featureReturns (samples : List WESample) (f : String) : List ℚ :=
  samples.foldr
    (fun s acc =>
      List.replicate (s.detectedFeatures.count f) s.actualReturnT3 ++ acc)
    []

/-- The correlation entry of WeightEvolver._analyze_feature_performance:
defined only for features with at least 5 collected returns, and then the
three-valued sign of the average return against the 0.02 dead zone. -/
def featureCorrelation (samples : List WESample) (f : String) : Option ℚ :=
  let rs := featureReturns samples f
  if 5 ≤ rs.length then
    let avg := rs.sum / rs.length
    some (if 1/50 < avg then 1 else if avg < -(1/50) then -1 else 0)
  else none

/-- The weight clamp of WeightEvolver.evolve: max(-0.5, min(0.5, w)). -/
def clampWE (q : ℚ) : ℚ := max (-(1/2)) (min (1/2) q)

/-- The new-weight computation of WeightEvolver.evolve: every feature of
the current vector whose correlation is defined gets
round(clamp(old * decay + correlation * max_change), 4); every other
feature keeps its old weight. -/
def evolveWeights (cfg : WEConfig) (cw : List (String × ℚ))
    (samples : List WESample) : List (String × ℚ) :=
  cw.map
    (fun p =>
      match featureCorrelation samples p.1 with
      | some corr =>
        (p.1, round4 (clampWE (p.2 * cfg.decayFactor
          + corr * cfg.maxWeightChange)))
      | none => p)

/-- WeightEvolver._mark_samples_evolved: UPDATE market_tracking SET
evolved = true WHERE news_id IN the given list — keyed by news_id, so
every row sharing a news_id with the batch is marked. -/
def markSamplesEvolved (newsIds : List String) (rows : List TrackRow) :
    List TrackRow :=
  rows.map
    (fun r => if r.newsId ∈ newsIds then { r with evolved := true } else r)

/-- WeightEvolver.evolve as a state transformer: load the current vector
when none is passed, fetch the samples, abort unchanged below
min_samples, otherwise compute the new vector, append it to the snapshot
log and mark the consumed news ids.  Returns the vector handed back to
the caller together with the new database state. -/
def evolveOp (cfg : WEConfig) (db : WEDb)
    (cw : Option (List (String × ℚ))) : List (String × ℚ) × WEDb :=
  let current := cw.getD (loadCurrentWeights db)
  let samples := getEvolutionSamples db
  if samples.length < cfg.minSamples then (current, db)
  else
    let nw := evolveWeights cfg current samples
    (nw,
     { db with
        weightLog := db.weightLog ++ [nw],
        tracking :=
          markSamplesEvolved (samples.map (fun s => s.newsId)) db.tracking })

/-- One MarketFeedback record of src/strategy_updater.py. -/
structure MarketFeedback where
  newsId : String
  aiAuditScore : ℚ
  detectedFeatures : List String
  actualReturnT3 : ℚ
  marketRegime : String
  deriving DecidableEq, Repr

/-- DynamicConfig initial weights of src/strategy_updater.py. -/
def suDefaultWeights : List (String × ℚ) :=
  [("hype_language", -20), ("policy_demand", 15), ("uncertainty", -30),
   ("logical_rigor", 25), ("data_support", 20)]

/-- The per-occurrence correction signal of StrategyUpdater.evolve: a
step of 5 or 2 in the direction of a clearly-directional T+3 return
(dead zone 0.02), picked by whether the audit score disagreed with the
move, then scaled by the market regime (Bull 1.2, Bear 0.8). -/
def correctionSignal (fb : MarketFeedback) : ℚ :=
  let base : ℚ :=
    if 1/50 < fb.actualReturnT3 then
      (if fb.aiAuditScore < 50 then 5 else 2)
    else if fb.actualReturnT3 < -(1/50) then
      (if 50 < fb.aiAuditScore then -5 else -2)
    else 0
  if fb.marketRegime = "Bull" then base * (6/5)
  else if fb.marketRegime = "Bear" then base * (4/5)
  else base

/-- weight_deltas[f] of StrategyUpdater.evolve: the correction signal
summed over every occurrence of the feature in the batch (occurrences
within one feedback each contribute the same signal). -/
def featureDelta (batch : List MarketFeedback) (f : String) : ℚ :=
  batch.foldr
    (fun fb acc => (fb.detectedFeatures.count f : ℚ) * correctionSignal fb
      + acc)
    0

/-- feature_counts[f] of StrategyUpdater.evolve. -/
def featureCount (batch : List MarketFeedback) (f : String) : Nat :=
  batch.foldr (fun fb acc => fb.detectedFeatures.count f + acc) 0

/-- The weight clamp of StrategyUpdater.evolve: max(-50, min(50, w)). -/
def clampSU (q : ℚ) : ℚ := max (-50) (min 50 q)

/-- StrategyUpdater.evolve on the weight vector: an empty batch returns
immediately; otherwise every feature with at least one occurrence moves
by its average correction signal times the learning rate, clamped to
[-50, 50] and rounded to 2 decimals, and every other feature keeps its
old weight. -/
def suEvolve (lr : ℚ) (ws : List (String × ℚ))
    (batch : List MarketFeedback) : List (String × ℚ) :=
  if batch = [] then ws
  else
    ws.map
      (fun p =>
        if 0 < featureCount batch p.1 then
          let avg := featureDelta batch p.1 / (featureCount batch p.1 : ℚ)
          (p.1, round2 (clampSU (p.2 + avg * lr)))
        else p)

/-- The three-valued correlation signal in the words of claim C6 and spec
section 4.3 step 2: +1 if the average T+3 return of the samples
mentioning the feature exceeds 0.02, -1 if it is below -0.02, else 0.
Stated spec-side, to be compared with the correlation computed inside
WeightEvolver._analyze_feature_performance. -/
def specCorrelationSignal (samples : List WESample) (f : String) : ℚ :=
  let avg := (featureReturns samples f).sum / (featureReturns samples f).length
  if 1/50 < avg then 1 else if avg < -(1/50) then -1 else 0

/-! Concrete instances used by witnesses and counterexamples. -/

/-- A freshly created tracking task: entry price 100 on day 0. -/
def c1Task : Tracking :=
  { trackingId := 1, newsId := "n1", ticker := "600000.SH",
    priceT0 := some 100, priceT1 := none, priceT3 := none, priceT7 := none,
    t0Date := 0, t1Stamp := false, t3Stamp := false, t7Stamp := false,
    expectedCloseDate := 7, marketRegime := "Bull", status := "active",
    maxDrawdown := none, finalPnl := none }

/-- First day-3 invocation of updateAllPrices, price source reading 95. -/
def c1Day3a : List Tracking × List AlertMsg :=
  updateAllPrices (fun _ => 95) 3 [c1Task]

/-- Second invocation on the same day, price source now reading 93. -/
def c1Day3b : List Tracking × List AlertMsg :=
  updateAllPrices (fun _ => 93) 3 c1Day3a.1

/-- An active task with its T+7 snapshot captured but whose
expected_close_date (day 1000) is far in the future. -/
def c2Task : Tracking :=
  { c1Task with
    priceT7 := some 110,
    t7Stamp := true,
    expectedCloseDate := 1000 }

/-- The day-1 tick of the claim C4 scenario: price reads 97. -/
def c4Day1 : List Tracking × List AlertMsg :=
  updateAllPrices (fun _ => 97) 1 [c1Task]

/-- The day-3 tick of the claim C4 scenario: price reads 90. -/
def c4Day3 : List Tracking × List AlertMsg :=
  updateAllPrices (fun _ => 90) 3 c4Day1.1

/-- The day-7 tick of the claim C4 scenario: price reads 110. -/
def c4Day7 : List Tracking × List AlertMsg :=
  updateAllPrices (fun _ => 110) 7 c4Day3.1

/-- The scenario task after the day-1 tick. -/
def c4T1 : Tracking :=
  { c1Task with priceT1 := some 97, t1Stamp := true }

/-- The scenario task after the day-3 tick. -/
def c4T3 : Tracking :=
  { c4T1 with priceT3 := some 90, t3Stamp := true }

/-- The alert raised by the day-3 tick of the scenario. -/
def c4Alert3 : AlertMsg :=
  { alertType := "T+3严重回撤", ticker := "600000.SH", newsId := "n1",
    entryPrice := 100, currentPrice := 90, returnPct := (90 - 100) / 100 }

/-- The scenario task at day 7, T+7 snapshot written, metrics pending. -/
def c4T7p : Tracking :=
  { c4T3 with priceT7 := some 110, t7Stamp := true }

/-- A task with the claim C4 checkpoint prices all captured. -/
def c5Task : Tracking :=
  { c1Task with
    priceT1 := some 97,
    priceT3 := some 90,
    priceT7 := some 110,
    t1Stamp := true,
    t3Stamp := true,
    t7Stamp := true }

/-- An unconsumed market_tracking row at T+3: bought at 100, 105 at T+3,
attached to news item n1. -/
def mkRow (ticker : String) : TrackRow :=
  { newsId := "n1", ticker := ticker, priceT0 := some 100,
    priceT3 := some 105, t3Stamp := true, marketRegime := "Bull",
    evolved := false }

/-- A database holding k unconsumed T+3-complete rows for news item n1,
whose audit detected the hype_language feature with score 30. -/
def sampleDb (k : Nat) : WEDb :=
  { weightLog := [],
    tracking := (List.range k).map (fun i => mkRow (toString i)),
    news := [("n1", { score := 30, detectedFeatures := ["hype_language"] })] }

/-- The WeightEvolver configuration with all defaults. -/
def defaultWEConfig : WEConfig := {}

/-- Thirty feedback samples all carrying feature hype_language with a
clearly positive T+3 return of 5 percent. -/
def cSamples30 : List WESample :=
  List.replicate 30
    { newsId := "n1", ticker := "600000.SH", aiScore := 30,
      detectedFeatures := ["hype_language"], actualReturnT3 := 1/20,
      marketRegime := "Bull" }

/-- Thirty feedback samples for feature feat whose returns average zero,
attached to a current weight small enough to expose rounding. -/
def c6Samples : List WESample :=
  List.replicate 30
    { newsId := "n1", ticker := "600000.SH", aiScore := 50,
      detectedFeatures := ["feat"], actualReturnT3 := 0,
      marketRegime := "Bull" }

/-- A price source that fails on every ticker. -/
def c9Quote : String → Option ℚ := fun _ => none

/-- One consumed-batch sample for news n1 (ticker 600000.SH only). -/
def c10Samples : List WESample :=
  [{ newsId := "n1", ticker := "600000.SH", aiScore := 30,
     detectedFeatures := ["hype_language"], actualReturnT3 := 1/20,
     marketRegime := "Bull" }]

/-- Three market_tracking rows: the batched (n1, 600000.SH) row, a second
ticker of the same news item that is not in the batch, and an
already-marked row of another news item. -/
def c10Rows : List TrackRow :=
  [mkRow "600000.SH",
   { (mkRow "000001.SZ") with newsId := "n1" },
   { (mkRow "300750.SZ") with newsId := "n2", evolved := true }]

/-! Helper lemmas. -/

/-- Rounding never overshoots an integer upper bound. -/
theorem roundHalfEven_le_of_le (q : ℚ) (n : ℤ) (h : q ≤ (n : ℚ)) :
    roundHalfEven q ≤ n := by
  have hfl : (⌊q⌋ : ℚ) ≤ q := Int.floor_le q
  have hf : ⌊q⌋ ≤ n := by exact_mod_cast hfl.trans h
  unfold roundHalfEven
  split
  · exact hf
  · next hlt =>
    have h2 : (1 : ℚ)/2 ≤ q - ⌊q⌋ := not_lt.mp hlt
    have h3 : (⌊q⌋ : ℚ) < (n : ℚ) := by linarith
    have h4 : ⌊q⌋ < n := by exact_mod_cast h3
    split
    · omega
    · split
      · exact hf
      · omega

/-- Rounding never undershoots an integer lower bound. -/
theorem le_roundHalfEven_of_le (q : ℚ) (n : ℤ) (h : (n : ℚ) ≤ q) :
    n ≤ roundHalfEven q := by
  have hnf : n ≤ ⌊q⌋ := Int.le_floor.mpr h
  unfold roundHalfEven
  split
  · exact hnf
  · split
    · omega
    · split
      · exact hnf
      · omega

/-- Python round(q, 4) keeps a value inside [-1/2, 1/2]. -/
theorem round4_bounds (q : ℚ) (h1 : -(1/2) ≤ q) (h2 : q ≤ 1/2) :
    -(1/2) ≤ round4 q ∧ round4 q ≤ 1/2 := by
  have hu : q * 10000 ≤ ((5000 : ℤ) : ℚ) := by push_cast; linarith
  have hl : ((-5000 : ℤ) : ℚ) ≤ q * 10000 := by push_cast; linarith
  have h3 : (roundHalfEven (q * 10000) : ℚ) ≤ 5000 := by
    exact_mod_cast roundHalfEven_le_of_le _ _ hu
  have h4 : (-5000 : ℚ) ≤ (roundHalfEven (q * 10000) : ℚ) := by
    exact_mod_cast le_roundHalfEven_of_le _ _ hl
  unfold round4
  constructor <;> linarith

/-- Python round(q, 2) keeps a value inside [-50, 50]. -/
theorem round2_bounds (q : ℚ) (h1 : -(50 : ℚ) ≤ q) (h2 : q ≤ 50) :
    -(50 : ℚ) ≤ round2 q ∧ round2 q ≤ 50 := by
  have hu : q * 100 ≤ ((5000 : ℤ) : ℚ) := by push_cast; linarith
  have hl : ((-5000 : ℤ) : ℚ) ≤ q * 100 := by push_cast; linarith
  have h3 : (roundHalfEven (q * 100) : ℚ) ≤ 5000 := by
    exact_mod_cast roundHalfEven_le_of_le _ _ hu
  have h4 : (-5000 : ℚ) ≤ (roundHalfEven (q * 100) : ℚ) := by
    exact_mod_cast le_roundHalfEven_of_le _ _ hl
  unfold round2
  constructor <;> linarith

/-- The WeightEvolver clamp lands inside [-1/2, 1/2]. -/
theorem clampWE_bounds (q : ℚ) : -(1/2) ≤ clampWE q ∧ clampWE q ≤ 1/2 := by
  unfold clampWE
  exact ⟨le_max_left _ _, max_le (by norm_num) (min_le_left _ _)⟩

/-- The StrategyUpdater clamp lands inside [-50, 50]. -/
theorem clampSU_bounds (q : ℚ) : -(50 : ℚ) ≤ clampSU q ∧ clampSU q ≤ 50 := by
  unfold clampSU
  exact ⟨le_max_left _ _, max_le (by norm_num) (min_le_left _ _)⟩

/-- The drawdown fold of the source: a left fold of min over fractional
deviations is below the seed, below every deviation, and attained at the
seed or at some member. -/
theorem foldl_min_dev (c : ℚ) (l : List ℚ) (a : ℚ) :
    l.foldl (fun acc p => min acc ((p - c) / c)) a ≤ a
  ∧ (∀ x ∈ l, l.foldl (fun acc p => min acc ((p - c) / c)) a ≤ (x - c) / c)
  ∧ (l.foldl (fun acc p => min acc ((p - c) / c)) a = a
      ∨ ∃ x ∈ l, l.foldl (fun acc p => min acc ((p - c) / c)) a
          = (x - c) / c) := by
  induction l generalizing a with
  | nil => simp
  | cons y ys ih =>
    obtain ⟨ih1, ih2, ih3⟩ := ih (min a ((y - c) / c))
    simp only [List.foldl_cons]
    refine ⟨ih1.trans (min_le_left _ _), ?_, ?_⟩
    · intro x hx
      rcases List.mem_cons.mp hx with hx | hx
      · subst hx
        exact ih1.trans (min_le_right _ _)
      · exact ih2 x hx
    · rcases ih3 with h | ⟨x, hx, hxe⟩
      · rcases le_total a ((y - c) / c) with hle | hle
        · left
          rw [h, min_eq_left hle]
        · right
          exact ⟨y, List.mem_cons_self _ _, by rw [h, min_eq_right hle]⟩
      · right
        exact ⟨x, List.mem_cons_of_mem _ hx, hxe⟩

/-- The table produced by updateAllPrices is the per-task update mapped
over the table. -/
theorem updateAllPrices_fst (g : String → ℚ) (today : Int)
    (st : List Tracking) :
    (updateAllPrices g today st).1
      = st.map (fun t => (updateTask g today t).1) := by
  induction st with
  | nil => rfl
  | cons t ts ih =>
    simp only [updateAllPrices, List.foldr_cons, List.map_cons]
    exact congrArg _ ih

/-- On an active task at day offset 3, updateTask writes the freshly read
price into price_t3 unconditionally. -/
theorem updateTask_day3 (g : String → ℚ) (today : Int) (t : Tracking)
    (hact : t.status = "active") (hday : today - t.t0Date = 3) :
    (updateTask g today t).1.priceT3 = some (g t.ticker) := by
  unfold updateTask
  rw [if_pos hact]
  dsimp only
  repeat' split
  all_goals first | rfl | omega

/-- The close loop body written as a single guarded update: the row is
closed exactly under the conjunction of the status, timestamp and
truthiness tests of the source. -/
theorem closeTask_eq (t : Tracking) :
    closeTask t =
      if t.status = "active" ∧ t.t7Stamp = true ∧ pyTruthy t.priceT7 = true
          ∧ pyTruthy t.priceT0 = true then
        { t with
          status := "closed",
          finalPnl := some ((t.priceT7.getD 0 - t.priceT0.getD 0)
            / t.priceT0.getD 0) }
      else t := by
  unfold closeTask
  by_cases hs : t.status = "active" ∧ t.t7Stamp = true
  · rw [if_pos hs]
    cases h7 : t.priceT7 with
    | none => simp [pyTruthy, hs, h7]
    | some p7 =>
      cases h0 : t.priceT0 with
      | none => simp [pyTruthy, hs, h0]
      | some p0 =>
        dsimp only
        by_cases hnz : p7 ≠ 0 ∧ p0 ≠ 0
        · rw [if_pos hnz, if_pos ⟨hs.1, hs.2, by simp [pyTruthy, hnz.1],
            by simp [pyTruthy, hnz.2]⟩]
          simp
        · rw [if_neg hnz]
          rw [if_neg ?_]
          rintro ⟨-, -, hp7, hp0⟩
          simp only [pyTruthy, decide_eq_true_eq] at hp7 hp0
          exact hnz ⟨hp7, hp0⟩
  · rw [if_neg hs]
    rw [if_neg ?_]
    rintro ⟨h1, h2, -, -⟩
    exact hs ⟨h1, h2⟩

/-- Case analysis of the close loop body: a row comes out closed exactly
when it was already closed or was active with the T+7 timestamp set and
truthy T+7 and T+0 prices; an active row without those is untouched; and
a row this operation closes carries a truthy price_t7. -/
theorem closeTask_props (t : Tracking) :
    ((closeTask t).status = "closed" ↔
      (t.status = "closed" ∨ (t.status = "active" ∧ t.t7Stamp = true
        ∧ pyTruthy t.priceT7 = true ∧ pyTruthy t.priceT0 = true)))
  ∧ (t.status = "active" ∧ (t.t7Stamp = false ∨ pyTruthy t.priceT7 = false
        ∨ pyTruthy t.priceT0 = false)
      → closeTask t = t)
  ∧ (t.status = "active" ∧ (closeTask t).status = "closed"
      → pyTruthy (closeTask t).priceT7 = true) := by
  rw [closeTask_eq]
  by_cases hc : t.status = "active" ∧ t.t7Stamp = true
      ∧ pyTruthy t.priceT7 = true ∧ pyTruthy t.priceT0 = true
  · rw [if_pos hc]
    refine ⟨?_, ?_, ?_⟩
    · simp only [true_iff]
      exact Or.inr ⟨hc.1, hc.2.1, hc.2.2.1, hc.2.2.2⟩
    · rintro ⟨-, h | h | h⟩
      · rw [hc.2.1] at h
        exact absurd h (by decide)
      · rw [hc.2.2.1] at h
        exact absurd h (by decide)
      · rw [hc.2.2.2] at h
        exact absurd h (by decide)
    · intro _
      exact hc.2.2.1
  · rw [if_neg hc]
    have hsplit : t.status ≠ "active" ∨ t.t7Stamp = false
        ∨ pyTruthy t.priceT7 = false ∨ pyTruthy t.priceT0 = false := by
      by_cases h1 : t.status = "active"
      · by_cases h2 : t.t7Stamp = true
        · by_cases h3 : pyTruthy t.priceT7 = true
          · by_cases h4 : pyTruthy t.priceT0 = true
            · exact absurd ⟨h1, h2, h3, h4⟩ hc
            · exact Or.inr (Or.inr (Or.inr (Bool.not_eq_true _ ▸ h4)))
          · exact Or.inr (Or.inr (Or.inl (Bool.not_eq_true _ ▸ h3)))
        · exact Or.inr (Or.inl (Bool.not_eq_true _ ▸ h2))
      · exact Or.inl h1
    refine ⟨?_, fun _ => rfl, ?_⟩
    · constructor
      · exact fun h => Or.inl h
      · rintro (h | ⟨h1, h2, h3, h4⟩)
        · exact h
        · exact absurd ⟨h1, h2, h3, h4⟩ hc
    · rintro ⟨ha, hcl⟩
      rw [ha] at hcl
      exact absurd hcl (by decide)

/-- Bound preservation of the WeightEvolver update step: a current vector
inside [-1/2, 1/2] evolves into a vector inside [-1/2, 1/2]. -/
theorem evolveWeights_bounds (cfg : WEConfig) (cw : List (String × ℚ))
    (samples : List WESample)
    (hcw : ∀ p ∈ cw, -(1/2 : ℚ) ≤ p.2 ∧ p.2 ≤ 1/2) :
    ∀ p ∈ evolveWeights cfg cw samples, -(1/2 : ℚ) ≤ p.2 ∧ p.2 ≤ 1/2 := by
  intro p hp
  simp only [evolveWeights, List.mem_map] at hp
  obtain ⟨q, hq, rfl⟩ := hp
  cases hcorr : featureCorrelation samples q.1 with
  | none =>
    simp only [hcorr]
    exact hcw q hq
  | some c =>
    simp only [hcorr]
    obtain ⟨hl, hr⟩ := clampWE_bounds
      (q.2 * cfg.decayFactor + c * cfg.maxWeightChange)
    exact round4_bounds _ hl hr

/-- Bound preservation of the StrategyUpdater update step: a current
vector inside [-50, 50] evolves into a vector inside [-50, 50]. -/
theorem suEvolve_bounds (lr : ℚ) (ws : List (String × ℚ))
    (batch : List MarketFeedback)
    (hws : ∀ p ∈ ws, -(50 : ℚ) ≤ p.2 ∧ p.2 ≤ 50) :
    ∀ p ∈ suEvolve lr ws batch, -(50 : ℚ) ≤ p.2 ∧ p.2 ≤ 50 := by
  intro p hp
  by_cases hb : batch = []
  · rw [suEvolve, if_pos hb] at hp
    exact hws p hp
  · rw [suEvolve, if_neg hb] at hp
    simp only [List.mem_map] at hp
    obtain ⟨q, hq, rfl⟩ := hp
    by_cases hcnt : 0 < featureCount batch q.1
    · rw [if_pos hcnt]
      obtain ⟨hl, hr⟩ := clampSU_bounds
        (q.2 + featureDelta batch q.1 / (featureCount batch q.1 : ℚ) * lr)
      exact round2_bounds _ hl hr
    · rw [if_neg hcnt]
      exact hws q hq

/-- calcMetrics only writes the two metric columns. -/
theorem calcMetrics_preserves (t : Tracking) :
    (calcMetrics t).status = t.status ∧ (calcMetrics t).t0Date = t.t0Date
    ∧ (calcMetrics t).ticker = t.ticker := by
  unfold calcMetrics
  dsimp only
  repeat' split
  all_goals exact ⟨rfl, rfl, rfl⟩

/-- updateTask never changes the identity, status or creation date of a
row. -/
theorem updateTask_preserves (g : String → ℚ) (today : Int) (t : Tracking) :
    (updateTask g today t).1.status = t.status
    ∧ (updateTask g today t).1.t0Date = t.t0Date
    ∧ (updateTask g today t).1.ticker = t.ticker := by
  unfold updateTask
  dsimp only
  repeat' split
  all_goals first
  | exact ⟨rfl, rfl, rfl⟩
  | exact ⟨(calcMetrics_preserves _).1, (calcMetrics_preserves _).2.1,
      (calcMetrics_preserves _).2.2⟩

/-- The day-1 branch of updateTask when the drawdown test does not
trigger. -/
theorem updateTask_day1_noalert (g : String → ℚ) (today : Int)
    (t : Tracking) (hact : t.status = "active")
    (hday : today - t.t0Date = 1) (p0 : ℚ) (h0 : t.priceT0 = some p0)
    (hcond : ¬(0 < p0 ∧ (g t.ticker - p0) / p0 < -(3/100))) :
    updateTask g today t
      = ({ t with priceT1 := some (g t.ticker), t1Stamp := true }, []) := by
  unfold updateTask
  rw [if_pos hact]
  dsimp only
  rw [if_pos hday]
  split
  · next p0' heq =>
    rw [h0] at heq
    cases Option.some.inj heq
    rw [if_neg hcond]
  · next heq =>
    rw [h0] at heq

/-- The day-3 branch of updateTask when the severe-drawdown test
triggers. -/
theorem updateTask_day3_alert (g : String → ℚ) (today : Int)
    (t : Tracking) (hact : t.status = "active")
    (hday : today - t.t0Date = 3) (p0 : ℚ) (h0 : t.priceT0 = some p0)
    (hcond : 0 < p0 ∧ (g t.ticker - p0) / p0 < -(5/100)) :
    updateTask g today t
      = ({ t with priceT3 := some (g t.ticker), t3Stamp := true },
         [{ alertType := "T+3严重回撤", ticker := t.ticker,
            newsId := t.newsId, entryPrice := p0,
            currentPrice := g t.ticker,
            returnPct := (g t.ticker - p0) / p0 }]) := by
  unfold updateTask
  rw [if_pos hact]
  dsimp only
  rw [if_neg (by omega), if_pos hday]
  split
  · next p0' heq =>
    rw [h0] at heq
    cases Option.some.inj heq
    rw [if_pos hcond]
  · next heq =>
    rw [h0] at heq
    exact absurd heq (by simp)

/-- The day-7 branch of updateTask: unconditional snapshot write followed
by the metrics computation. -/
theorem updateTask_day7_eq (g : String → ℚ) (today : Int) (t : Tracking)
    (hact : t.status = "active") (hday : today - t.t0Date = 7) :
    updateTask g today t
      = (calcMetrics { t with priceT7 := some (g t.ticker), t7Stamp := true },
         []) := by
  unfold updateTask
  rw [if_pos hact]
  dsimp only
  rw [if_neg (by omega), if_neg (by omega), if_pos hday]

/-- The day-1 tick of the scenario leaves no alert and records 97. -/
theorem c4Day1_eq : c4Day1 = ([c4T1], []) := by
  show updateAllPrices (fun _ => 97) 1 [c1Task] = ([c4T1], [])
  unfold updateAllPrices
  simp only [List.foldr]
  rw [updateTask_day1_noalert (fun _ => 97) 1 c1Task rfl (by decide) 100 rfl
    (by norm_num)]
  rfl

/-- The day-3 tick of the scenario records 90 and raises the severe
alert. -/
theorem c4Day3_eq : c4Day3 = ([c4T3], [c4Alert3]) := by
  show updateAllPrices (fun _ => 90) 3 c4Day1.1 = ([c4T3], [c4Alert3])
  rw [show c4Day1.1 = [c4T1] from by rw [c4Day1_eq]]
  unfold updateAllPrices
  simp only [List.foldr]
  rw [updateTask_day3_alert (fun _ => 90) 3 c4T1 rfl (by decide) 100 rfl
    (by norm_num)]
  rfl

/-- The day-7 tick of the scenario records 110 and computes metrics. -/
theorem c4Day7_eq : c4Day7.1 = [calcMetrics c4T7p] := by
  show (updateAllPrices (fun _ => 110) 7 c4Day3.1).1 = [calcMetrics c4T7p]
  rw [show c4Day3.1 = [c4T3] from by rw [c4Day3_eq]]
  unfold updateAllPrices
  simp only [List.foldr]
  rw [updateTask_day7_eq (fun _ => 110) 7 c4T3 rfl (by decide)]
  rfl

/-- The metrics of the scenario task: drawdown -10 percent, PnL +10
percent. -/
theorem c4_metrics :
    (calcMetrics c4T7p).maxDrawdown = some (-(1/10))
    ∧ (calcMetrics c4T7p).finalPnl = some (1/10) := by
  have hcp : capturedPrices c4T7p = [100, 97, 90, 110] := rfl
  unfold calcMetrics
  rw [hcp]
  rw [if_neg (by norm_num)]
  rw [show c4T7p.priceT0 = some (100 : ℚ) from rfl]
  dsimp only
  rw [if_neg (by norm_num : ¬(100 : ℚ) = 0)]
  constructor
  · show some ([(100 : ℚ), 97, 90, 110].foldl
        (fun acc p => min acc ((p - 100) / 100)) 0) = some (-(1/10))
    simp only [List.foldl]
    norm_num [min_def]
  · show some (if (pyTruthy c4T7p.priceT7 && pyTruthy c4T7p.priceT0) = true
        then (c4T7p.priceT7.getD 0 - 100) / 100 else 0) = some (1/10)
    rw [show c4T7p.priceT7 = some (110 : ℚ) from rfl]
    rw [show c4T7p.priceT0 = some (100 : ℚ) from rfl]
    rw [if_pos (by norm_num [pyTruthy] :
      (pyTruthy (some (110 : ℚ)) && pyTruthy (some (100 : ℚ))) = true)]
    show some (((110 : ℚ) - 100) / 100) = some (1/10)
    norm_num

/-! Claim theorems. -/

/-- Claim C1, counterexample: checkpoint capture at day offset 3 is not
idempotent.  After a first day-3 invocation of updateAllPrices has
captured price_t3 = 95, a second invocation on the same day with the
price source now reading 93 re-captures the checkpoint, overwriting
price_t3 with 93 — the task already holding price_t3 is re-captured. -/
theorem updateAllPrices_recaptures_day3 :
    (c1Day3a.1.map (fun t => t.priceT3)) = [some 95]
    ∧ (c1Day3b.1.map (fun t => t.priceT3)) = [some 93] := by
  constructor
  · show [(updateTask (fun _ => (95 : ℚ)) 3 c1Task).1.priceT3] = [some 95]
    rw [updateTask_day3 (fun _ => (95 : ℚ)) 3 c1Task rfl (by decide)]
  · have hact2 : (updateTask (fun _ => (95 : ℚ)) 3 c1Task).1.status
        = "active" := by
      rw [(updateTask_preserves _ _ _).1]
      rfl
    have hday2 : (3 : Int)
        - (updateTask (fun _ => (95 : ℚ)) 3 c1Task).1.t0Date = 3 := by
      rw [(updateTask_preserves _ _ _).2.1]
      decide
    show [(updateTask (fun _ => (93 : ℚ)) 3
      (updateTask (fun _ => (95 : ℚ)) 3 c1Task).1).1.priceT3] = [some 93]
    rw [updateTask_day3 _ _ _ hact2 hday2]

/-- Claim C1 (amended): on any active task at day offset 3, every
invocation of updateAllPrices writes the freshly fetched price into
price_t3 unconditionally — a second same-day invocation overwrites the
checkpoint rather than skipping it, so the state is unchanged only when
the price source returns the same price again. -/
theorem updateAllPrices_day3_overwrites (g : String → ℚ) (today : Int)
    (st : List Tracking) (i : Nat) (h : i < st.length)
    (hact : (st.get ⟨i, h⟩).status = "active")
    (hday : today - (st.get ⟨i, h⟩).t0Date = 3) :
    ∃ h2 : i < (updateAllPrices g today st).1.length,
      ((updateAllPrices g today st).1.get ⟨i, h2⟩).priceT3
        = some (g ((st.get ⟨i, h⟩).ticker)) := by
  have hfst := updateAllPrices_fst g today st
  have hlen : (updateAllPrices g today st).1.length = st.length := by
    rw [hfst, List.length_map]
  refine ⟨hlen ▸ h, ?_⟩
  have hget : (updateAllPrices g today st).1.get ⟨i, hlen ▸ h⟩
      = (updateTask g today (st.get ⟨i, h⟩)).1 := by
    simp only [List.get_eq_getElem, hfst, List.getElem_map]
  rw [hget]
  exact updateTask_day3 g today _ hact hday

/-- Claim C1 witness: the amended theorem applied to the post-first-tick
state, whose single task already holds price_t3 = 95. -/
theorem updateAllPrices_day3_overwrites_witness :
    0 < c1Day3a.1.length
    ∧ ∃ h2 : 0 < (updateAllPrices (fun _ => 93) 3 c1Day3a.1).1.length,
        ((updateAllPrices (fun _ => 93) 3 c1Day3a.1).1.get ⟨0, h2⟩).priceT3
          = some 93 := by
  have h01 : 0 < c1Day3a.1.length := by decide
  have hact2 : (c1Day3a.1.get ⟨0, h01⟩).status = "active" := by
    show (updateTask (fun _ => (95 : ℚ)) 3 c1Task).1.status = "active"
    rw [(updateTask_preserves _ _ _).1]
    rfl
  have hday2 : (3 : Int) - (c1Day3a.1.get ⟨0, h01⟩).t0Date = 3 := by
    show (3 : Int) - (updateTask (fun _ => (95 : ℚ)) 3 c1Task).1.t0Date = 3
    rw [(updateTask_preserves _ _ _).2.1]
    decide
  obtain ⟨h2, hp⟩ := updateAllPrices_day3_overwrites (fun _ => 93) 3
    c1Day3a.1 0 h01 hact2 hday2
  exact ⟨h01, h2, hp⟩

/-- Claim C2, counterexample: MarketTracker.check_and_close_completed
closes an active task whose T+7 snapshot is captured even though its
expected_close_date (day 1000) has not passed — the close condition
never consults the close date, so the claimed "exactly when its
expected_close_date has passed" is false. -/
theorem checkAndClose_ignores_close_date :
    ((checkAndCloseCompleted [c2Task]).map (fun t => t.status)) = ["closed"]
    ∧ (5 : Int) < c2Task.expectedCloseDate := by
  decide

/-- Claim C2 (amended): MarketTracker.check_and_close_completed
transitions a task to closed exactly when it is active with the
t7_timestamp set and truthy price_t7 and price_t0 — irrespective of
expected_close_date; an active task without a truthy price_t7 (or
timestamp, or price_t0) is left untouched and so remains active for the
next tick; and a task that is active and comes out closed carries a
truthy price_t7. -/
theorem checkAndClose_characterization (st : List Tracking) (i : Nat)
    (h : i < st.length) :
    ∃ h2 : i < (checkAndCloseCompleted st).length,
      (((checkAndCloseCompleted st).get ⟨i, h2⟩).status = "closed" ↔
        ((st.get ⟨i, h⟩).status = "closed"
          ∨ ((st.get ⟨i, h⟩).status = "active"
            ∧ (st.get ⟨i, h⟩).t7Stamp = true
            ∧ pyTruthy (st.get ⟨i, h⟩).priceT7 = true
            ∧ pyTruthy (st.get ⟨i, h⟩).priceT0 = true)))
      ∧ ((st.get ⟨i, h⟩).status = "active"
          ∧ ((st.get ⟨i, h⟩).t7Stamp = false
            ∨ pyTruthy (st.get ⟨i, h⟩).priceT7 = false
            ∨ pyTruthy (st.get ⟨i, h⟩).priceT0 = false)
          → (checkAndCloseCompleted st).get ⟨i, h2⟩ = st.get ⟨i, h⟩)
      ∧ ((st.get ⟨i, h⟩).status = "active"
          ∧ ((checkAndCloseCompleted st).get ⟨i, h2⟩).status = "closed"
          → pyTruthy ((checkAndCloseCompleted st).get ⟨i, h2⟩).priceT7
              = true) := by
  have hlen : (checkAndCloseCompleted st).length = st.length :=
    List.length_map _ _
  refine ⟨hlen ▸ h, ?_⟩
  have hget : (checkAndCloseCompleted st).get ⟨i, hlen ▸ h⟩
      = closeTask (st.get ⟨i, h⟩) := by
    simp only [List.get_eq_getElem, checkAndCloseCompleted, List.getElem_map]
  rw [hget]
  exact closeTask_props (st.get ⟨i, h⟩)

/-- Claim C2 witness: the characterization applied to the concrete
not-yet-due task, concluding that it is closed anyway. -/
theorem checkAndClose_characterization_witness :
    0 < ([c2Task] : List Tracking).length
    ∧ ∃ h2 : 0 < (checkAndCloseCompleted [c2Task]).length,
        ((checkAndCloseCompleted [c2Task]).get ⟨0, h2⟩).status = "closed" := by
  refine ⟨by decide, ?_⟩
  obtain ⟨h2, hiff, -, -⟩ :=
    checkAndClose_characterization [c2Task] 0 (by decide)
  exact ⟨h2, hiff.mpr (Or.inr (by decide))⟩

/-- Claim C4, counterexample: in the spec scenario the T+1 return is
(97 - 100) / 100, exactly the -3 percent threshold, and the strict
comparison of the source fires no T+1 alert — the claimed alert at the
T+1 checkpoint does not happen. -/
theorem t1_alert_not_fired_in_scenario :
    c4Day1.2 = [] ∧ (97 - 100 : ℚ) / 100 = -(3/100) := by
  constructor
  · rw [show c4Day1.2 = [] from by rw [c4Day1_eq]]
  · norm_num

/-- Claim C4 (amended): for the scenario price_t0 = 100, price_t1 = 97,
price_t3 = 90, price_t7 = 110, the computed max_drawdown is -0.10 and
final_pnl is +0.10, and the -5 percent alert fires at the T+3 checkpoint,
but no alert fires at T+1 because the return there equals the -3 percent
threshold exactly and the test is strict. -/
theorem scenario_metrics_and_alerts :
    (c4Day7.1.map (fun t => (t.maxDrawdown, t.finalPnl)))
        = [(some (-(1/10)), some (1/10))]
    ∧ c4Day1.2 = []
    ∧ (c4Day3.2.map (fun a => a.alertType)) = ["T+3严重回撤"] := by
  refine ⟨?_, ?_, ?_⟩
  · rw [c4Day7_eq]
    simp only [List.map]
    rw [c4_metrics.1, c4_metrics.2]
  · rw [show c4Day1.2 = [] from by rw [c4Day1_eq]]
  · rw [show c4Day3.2 = [c4Alert3] from by rw [c4Day3_eq]]
    rfl

/-- Claim C5: once metrics are computed (price_t0 present and positive,
at least two captured prices), max_drawdown is at most 0, lies below the
fractional deviation from t0 of every captured price, and is either the
0 cap or attained at some captured price — that is, it is the minimum
deviation capped at 0. -/
theorem maxDrawdown_capped_min (t : Tracking) (p0 : ℚ)
    (h0 : t.priceT0 = some p0) (hp : 0 < p0)
    (hlen : 2 ≤ (capturedPrices t).length) :
    ∃ md, (calcMetrics t).maxDrawdown = some md
      ∧ md ≤ 0
      ∧ (∀ p ∈ capturedPrices t, md ≤ (p - p0) / p0)
      ∧ (md = 0 ∨ ∃ p ∈ capturedPrices t, md = (p - p0) / p0) := by
  have hnl : ¬ (capturedPrices t).length < 2 := by omega
  have hne : ¬ p0 = 0 := ne_of_gt hp
  have hcalc : (calcMetrics t).maxDrawdown
      = some ((capturedPrices t).foldl
          (fun acc p => min acc ((p - p0) / p0)) 0) := by
    unfold calcMetrics
    dsimp only
    rw [if_neg hnl, h0]
    dsimp only
    rw [if_neg hne]
  obtain ⟨h1, h2, h3⟩ := foldl_min_dev p0 (capturedPrices t) 0
  exact ⟨_, hcalc, h1, h2, h3⟩

/-- Claim C5 witness: the characterization applied to the scenario task
with captured prices 100, 97, 90, 110. -/
theorem maxDrawdown_capped_min_witness :
    c5Task.priceT0 = some 100 ∧ (0 : ℚ) < 100
    ∧ 2 ≤ (capturedPrices c5Task).length
    ∧ ∃ md, (calcMetrics c5Task).maxDrawdown = some md
      ∧ md ≤ 0
      ∧ (∀ p ∈ capturedPrices c5Task, md ≤ (p - 100) / 100)
      ∧ (md = 0 ∨ ∃ p ∈ capturedPrices c5Task, md = (p - 100) / 100) :=
  ⟨rfl, by norm_num, by decide,
    maxDrawdown_capped_min c5Task 100 rfl (by norm_num) (by decide)⟩

/-- Claim C3: starting from a weight vector inside the bound range of the
path, every weight vector returned by evolve stays inside that range,
for any database contents (hence any batch size and return magnitudes) —
[-1/2, 1/2] for the WeightEvolver path and [-50, 50] for the
StrategyUpdater path. -/
theorem evolve_weights_within_bounds (cfg : WEConfig) (db : WEDb)
    (cw : List (String × ℚ)) (lr : ℚ) (ws : List (String × ℚ))
    (batch : List MarketFeedback)
    (hwe : ∀ p ∈ cw, -(1/2 : ℚ) ≤ p.2 ∧ p.2 ≤ 1/2)
    (hsu : ∀ p ∈ ws, -(50 : ℚ) ≤ p.2 ∧ p.2 ≤ 50) :
    (∀ p ∈ (evolveOp cfg db (some cw)).1, -(1/2 : ℚ) ≤ p.2 ∧ p.2 ≤ 1/2)
    ∧ (∀ p ∈ suEvolve lr ws batch, -(50 : ℚ) ≤ p.2 ∧ p.2 ≤ 50) := by
  constructor
  · intro p hp
    simp only [evolveOp] at hp
    by_cases hlt : (getEvolutionSamples db).length < cfg.minSamples
    · rw [if_pos hlt] at hp
      simp only [Option.getD_some] at hp
      exact hwe p hp
    · rw [if_neg hlt] at hp
      simp only [Option.getD_some] at hp
      exact evolveWeights_bounds cfg cw (getEvolutionSamples db) hwe p hp
  · exact suEvolve_bounds lr ws batch hsu

/-- Claim C3 witness: the bound theorem applied to the default vectors of
both paths and the 30-sample database, evaluated at the head entries of
the two returned vectors. -/
theorem evolve_weights_within_bounds_witness :
    (-(1/2 : ℚ)
        ≤ ((evolveOp defaultWEConfig (sampleDb 30)
            (some defaultWeights)).1.head!).2
      ∧ ((evolveOp defaultWEConfig (sampleDb 30)
            (some defaultWeights)).1.head!).2 ≤ 1/2)
    ∧ (-(50 : ℚ) ≤ ((suEvolve (1/10) suDefaultWeights []).head!).2
      ∧ ((suEvolve (1/10) suDefaultWeights []).head!).2 ≤ 50) := by
  have hb := evolve_weights_within_bounds defaultWEConfig (sampleDb 30)
    defaultWeights (1/10) suDefaultWeights []
    (by norm_num [defaultWeights]) (by norm_num [suDefaultWeights])
  have hgate : ¬ (getEvolutionSamples (sampleDb 30)).length
      < defaultWEConfig.minSamples := by decide
  have hne : (evolveOp defaultWEConfig (sampleDb 30)
      (some defaultWeights)).1 ≠ [] := by
    simp only [evolveOp]
    rw [if_neg hgate]
    simp [evolveWeights, defaultWeights]
  have hne2 : suEvolve (1/10) suDefaultWeights [] ≠ [] := by
    simp [suEvolve, suDefaultWeights]
  exact ⟨hb.1 _ (List.head!_mem_self hne), hb.2 _ (List.head!_mem_self hne2)⟩

/-- Claim C6, counterexample: the claimed update formula omits the
rounding of the source.  For the single-feature vector [(feat, 1/100000)]
and thirty samples of that feature with zero returns (correlation 0), the
code stores round(clamp(0.00001 * 0.9 + 0 * 0.15), 4) = 0, while the
claimed clamp(oldWeight * decayFactor + correlation * maxWeightChange)
equals 9/1000000, which is not 0. -/
theorem evolve_rounds_new_weight :
    evolveWeights defaultWEConfig [("feat", 1/100000)] c6Samples
      = [("feat", 0)]
    ∧ clampWE ((1/100000 : ℚ) * defaultWEConfig.decayFactor
        + specCorrelationSignal c6Samples "feat"
          * defaultWEConfig.maxWeightChange) = 9/1000000
    ∧ (9/1000000 : ℚ) ≠ 0 := by
  have hfr : featureReturns c6Samples "feat" = List.replicate 30 (0 : ℚ) := by
    decide
  have havg : (featureReturns c6Samples "feat").sum
      / ((featureReturns c6Samples "feat").length : ℚ) = 0 := by
    rw [hfr]
    simp
  have hspec : specCorrelationSignal c6Samples "feat" = 0 := by
    unfold specCorrelationSignal
    rw [havg]
    norm_num
  have hcorr : featureCorrelation c6Samples "feat" = some 0 := by
    unfold featureCorrelation
    rw [if_pos (by rw [hfr]; norm_num)]
    rw [havg]
    norm_num
  have hcl : clampWE ((1/100000 : ℚ) * defaultWEConfig.decayFactor
      + 0 * defaultWEConfig.maxWeightChange) = 9/1000000 := by
    show clampWE ((1/100000 : ℚ) * (9/10) + 0 * (15/100)) = 9/1000000
    unfold clampWE
    rw [min_eq_right (by norm_num), max_eq_right (by norm_num)]
    norm_num
  have hfloor : ⌊(9 : ℚ)/100⌋ = 0 := by
    rw [Int.floor_eq_iff]
    norm_num
  have hrhe : roundHalfEven ((9 : ℚ)/1000000 * 10000) = 0 := by
    rw [show (9 : ℚ)/1000000 * 10000 = 9/100 from by norm_num]
    unfold roundHalfEven
    rw [hfloor]
    rw [if_pos (by norm_num)]
  have hval : round4 ((9 : ℚ)/1000000) = 0 := by
    unfold round4
    rw [hrhe]
    norm_num
  refine ⟨?_, ?_, by norm_num⟩
  · simp only [evolveWeights, List.map, hcorr]
    rw [hcl, hval]
  · rw [hspec]
    exact hcl

/-- Claim C6 (amended): in one evolution cycle, every feature of the
current vector with at least 5 collected returns gets the new weight
round(clamp(oldWeight * decayFactor + correlation * maxWeightChange), 4)
with the three-valued correlation of the claim, and every feature below
that support keeps its old weight unchanged. -/
theorem evolve_newWeight_formula (cfg : WEConfig) (cw : List (String × ℚ))
    (samples : List WESample) (f : String) (ow : ℚ)
    (hmem : (f, ow) ∈ cw) :
    (5 ≤ (featureReturns samples f).length →
      (f, round4 (clampWE (ow * cfg.decayFactor
        + specCorrelationSignal samples f * cfg.maxWeightChange)))
        ∈ evolveWeights cfg cw samples)
    ∧ ((featureReturns samples f).length < 5
      → (f, ow) ∈ evolveWeights cfg cw samples) := by
  constructor
  · intro h5
    have hcorr : featureCorrelation samples f
        = some (specCorrelationSignal samples f) := by
      unfold featureCorrelation specCorrelationSignal
      rw [if_pos h5]
    unfold evolveWeights
    refine List.mem_map.mpr ⟨(f, ow), hmem, ?_⟩
    rw [hcorr]
  · intro h5
    have hcorr : featureCorrelation samples f = none := by
      unfold featureCorrelation
      rw [if_neg (by omega)]
    unfold evolveWeights
    refine List.mem_map.mpr ⟨(f, ow), hmem, ?_⟩
    rw [hcorr]

/-- Claim C6 witness: the formula theorem applied to hype_language in the
default vector with thirty positive-return samples. -/
theorem evolve_newWeight_formula_witness :
    (("hype_language", -(3/10 : ℚ)) ∈ defaultWeights)
    ∧ 5 ≤ (featureReturns cSamples30 "hype_language").length
    ∧ ("hype_language", round4 (clampWE ((-(3/10 : ℚ))
        * defaultWEConfig.decayFactor
        + specCorrelationSignal cSamples30 "hype_language"
          * defaultWEConfig.maxWeightChange)))
      ∈ evolveWeights defaultWEConfig defaultWeights cSamples30 :=
  ⟨by simp [defaultWeights], by decide,
    (evolve_newWeight_formula defaultWEConfig defaultWeights cSamples30
      "hype_language" (-(3/10)) (by simp [defaultWeights])).1 (by decide)⟩

/-- Claim C7: whenever the candidate sample set is smaller than
min_samples, evolve returns the current weight vector unchanged and the
database — snapshot log and tracking rows alike — is untouched: no new
snapshot, no consumption marking. -/
theorem evolve_noop_below_min (cfg : WEConfig) (db : WEDb)
    (cw : Option (List (String × ℚ)))
    (h : (getEvolutionSamples db).length < cfg.minSamples) :
    evolveOp cfg db cw = (cw.getD (loadCurrentWeights db), db) := by
  simp only [evolveOp]
  rw [if_pos h]

/-- Claim C7 witness: the no-op theorem applied to the database with 29
unconsumed samples and the default configuration. -/
theorem evolve_noop_below_min_witness :
    (getEvolutionSamples (sampleDb 29)).length < defaultWEConfig.minSamples
    ∧ evolveOp defaultWEConfig (sampleDb 29) (some defaultWeights)
        = (defaultWeights, sampleDb 29) := by
  refine ⟨by decide, ?_⟩
  have h := evolve_noop_below_min defaultWEConfig (sampleDb 29)
    (some defaultWeights) (by decide)
  simpa using h

/-- Claim C8: with evolution enabled and fewer unconsumed samples than
min_samples, should_evolve refuses and its reason string renders the
shortfall as count/min_samples, so the count appears verbatim inside the
reason. -/
theorem shouldEvolve_names_shortfall (cfg : WEConfig) (db : WEDb)
    (weekday hour : Nat) (hen : cfg.enabled = true)
    (hlt : (getEvolutionSamples db).length < cfg.minSamples) :
    shouldEvolve cfg db weekday hour
      = (false, "样本不足: " ++ toString (getEvolutionSamples db).length
          ++ "/" ++ toString cfg.minSamples)
    ∧ (toString (getEvolutionSamples db).length).toList
        <:+: ("样本不足: " ++ toString (getEvolutionSamples db).length
          ++ "/" ++ toString cfg.minSamples).toList := by
  constructor
  · simp only [shouldEvolve]
    rw [if_neg (by simp [hen]), if_pos hlt]
  · refine ⟨("样本不足: ").toList,
      ("/" ++ toString cfg.minSamples).toList, ?_⟩
    show ("样本不足: ").data ++ (toString (getEvolutionSamples db).length).data
        ++ (("/" ++ toString cfg.minSamples)).data = _
    rw [String.congr_append ("/" : String), String.congr_append,
      String.congr_append]
    simp [List.append_assoc]

/-- Claim C8 witness: 29 unconsumed samples against the default
min_samples of 30 yield a refusal whose reason is exactly
样本不足: 29/30, which mentions 29. -/
theorem shouldEvolve_names_shortfall_witness :
    defaultWEConfig.enabled = true
    ∧ (getEvolutionSamples (sampleDb 29)).length < defaultWEConfig.minSamples
    ∧ shouldEvolve defaultWEConfig (sampleDb 29) 0 0
        = (false, "样本不足: 29/30")
    ∧ ("29".toList <:+: "样本不足: 29/30".toList) := by
  have h := shouldEvolve_names_shortfall defaultWEConfig (sampleDb 29) 0 0
    rfl (by decide)
  refine ⟨rfl, by decide, ?_, by decide⟩
  rw [h.1]
  decide

/-- Claim C9, counterexample: a price source failing on every ticker does
not cause any ticker to be skipped — create_tracking substitutes the
static fallback price 100.0 and still creates a task for the failing
ticker, so a failed price read is not a skip. -/
theorem createTracking_uses_fallback_not_skip :
    createTracking c9Quote (fun _ => true) "n1"
        ["600000.SH", "000001.SZ"] "Bull"
      = [{ newsId := "n1", ticker := "600000.SH", priceT0 := 100,
           marketRegime := "Bull", status := "active" },
         { newsId := "n1", ticker := "000001.SZ", priceT0 := 100,
           marketRegime := "Bull", status := "active" }]
    ∧ c9Quote "600000.SH" = none := by
  exact ⟨rfl, rfl⟩

/-- Helper for claim C9: every ticker whose insert succeeds gets a task
with the price the fallback-wrapped read produced. -/
theorem createTracking_mem_of_insertOk (quote : String → Option ℚ)
    (insertOk : String → Bool) (nid rg : String) (tks : List String) :
    ∀ tk ∈ tks, insertOk tk = true →
      ({ newsId := nid, ticker := tk, priceT0 := getCurrentPrice quote tk,
         marketRegime := rg, status := "active" } : InsertedTracking)
        ∈ createTracking quote insertOk nid tks rg := by
  induction tks with
  | nil => simp
  | cons a l ih =>
    intro tk htk hins
    rcases List.mem_cons.mp htk with h | h
    · subst h
      unfold createTracking
      simp only [List.foldr_cons]
      rw [if_pos hins]
      exact List.mem_cons_self _ _
    · have hmem := ih tk h hins
      unfold createTracking at hmem ⊢
      simp only [List.foldr_cons]
      by_cases hA : insertOk a = true
      · rw [if_pos hA]
        exact List.mem_cons_of_mem _ hmem
      · rw [if_neg hA]
        exact hmem

/-- Helper for claim C9: every created task belongs to a ticker whose
insert succeeded — tickers are only skipped by a persistence failure. -/
theorem createTracking_mem_insertOk (quote : String → Option ℚ)
    (insertOk : String → Bool) (nid rg : String) (tks : List String) :
    ∀ t ∈ createTracking quote insertOk nid tks rg,
      insertOk t.ticker = true := by
  induction tks with
  | nil =>
    intro t ht
    simp [createTracking] at ht
  | cons a l ih =>
    intro t ht
    unfold createTracking at ht
    simp only [List.foldr_cons] at ht
    by_cases hA : insertOk a = true
    · rw [if_pos hA] at ht
      rcases List.mem_cons.mp ht with h | h
      · subst h
        exact hA
      · exact ih t h
    · rw [if_neg hA] at ht
      exact ih t ht

/-- Claim C9 (amended): create_tracking isolates failures per ticker:
persistence failures, not price failures — a ticker whose price read
fails still gets a task, created with the fallback price 100.0; a ticker
whose insert fails is skipped while every other ticker with a successful
insert still gets its task; no per-ticker failure aborts the call. -/
theorem createTracking_isolates_failures (quote : String → Option ℚ)
    (insertOk : String → Bool) (nid rg : String) (tks : List String) :
    (∀ tk ∈ tks, insertOk tk = true →
      ({ newsId := nid, ticker := tk, priceT0 := getCurrentPrice quote tk,
         marketRegime := rg, status := "active" } : InsertedTracking)
        ∈ createTracking quote insertOk nid tks rg)
    ∧ (∀ t ∈ createTracking quote insertOk nid tks rg,
        insertOk t.ticker = true)
    ∧ (∀ tk ∈ tks, quote tk = none → insertOk tk = true →
      ({ newsId := nid, ticker := tk, priceT0 := 100,
         marketRegime := rg, status := "active" } : InsertedTracking)
        ∈ createTracking quote insertOk nid tks rg) := by
  refine ⟨createTracking_mem_of_insertOk quote insertOk nid rg tks,
    createTracking_mem_insertOk quote insertOk nid rg tks, ?_⟩
  intro tk htk hq hins
  have hmem := createTracking_mem_of_insertOk quote insertOk nid rg tks
    tk htk hins
  have hgp : getCurrentPrice quote tk = 100 := by
    unfold getCurrentPrice
    rw [hq]
  rw [hgp] at hmem
  exact hmem

/-- Claim C9 witness: the failure-isolation theorem applied to an all-fail
price source and an all-succeed store on two tickers. -/
theorem createTracking_isolates_failures_witness :
    c9Quote "600000.SH" = none
    ∧ ({ newsId := "n1", ticker := "600000.SH", priceT0 := 100,
         marketRegime := "Bull", status := "active" } : InsertedTracking)
        ∈ createTracking c9Quote (fun _ => true) "n1"
            ["600000.SH", "000001.SZ"] "Bull" :=
  ⟨rfl,
    (createTracking_isolates_failures c9Quote (fun _ => true) "n1" "Bull"
      ["600000.SH", "000001.SZ"]).2.2 "600000.SH"
      (List.mem_cons_self _ _) rfl rfl⟩

/-- Setting the evolved flag on a row that already carries it is the
identity. -/
theorem trackRow_mark_self (r : TrackRow) (hev : r.evolved = true) :
    ({ r with evolved := true } : TrackRow) = r := by
  obtain ⟨nid, tic, t0, t3, st, rg, ev⟩ := r
  dsimp only at hev
  rw [hev]

/-- Claim C10: marking consumed feedback is keyed by news_id — after
_mark_samples_evolved, every market_tracking row whose news_id appears in
the consumed batch carries evolved = true, including rows of other
tickers of the same news item that were not in the batch; rows of other
news items are untouched, and a row already marked is left unchanged. -/
theorem markSamplesEvolved_keyed_by_newsId (samples : List WESample)
    (rows : List TrackRow) (i : Nat) (h : i < rows.length) :
    ∃ h2 : i < (markSamplesEvolved (samples.map (fun s => s.newsId))
        rows).length,
      ((markSamplesEvolved (samples.map (fun s => s.newsId)) rows).get
          ⟨i, h2⟩).newsId = (rows.get ⟨i, h⟩).newsId
      ∧ ((rows.get ⟨i, h⟩).newsId ∈ samples.map (fun s => s.newsId)
          → ((markSamplesEvolved (samples.map (fun s => s.newsId))
              rows).get ⟨i, h2⟩).evolved = true)
      ∧ ((rows.get ⟨i, h⟩).newsId ∉ samples.map (fun s => s.newsId)
          → (markSamplesEvolved (samples.map (fun s => s.newsId))
              rows).get ⟨i, h2⟩ = rows.get ⟨i, h⟩)
      ∧ ((rows.get ⟨i, h⟩).evolved = true
          → (markSamplesEvolved (samples.map (fun s => s.newsId))
              rows).get ⟨i, h2⟩ = rows.get ⟨i, h⟩) := by
  have hlen : (markSamplesEvolved (samples.map (fun s => s.newsId))
      rows).length = rows.length := List.length_map _ _
  refine ⟨hlen ▸ h, ?_⟩
  have hget : (markSamplesEvolved (samples.map (fun s => s.newsId))
        rows).get ⟨i, hlen ▸ h⟩
      = (if (rows.get ⟨i, h⟩).newsId ∈ samples.map (fun s => s.newsId)
          then { rows.get ⟨i, h⟩ with evolved := true }
          else rows.get ⟨i, h⟩) := by
    simp only [List.get_eq_getElem, markSamplesEvolved, List.getElem_map]
  rw [hget]
  by_cases hin : (rows.get ⟨i, h⟩).newsId ∈ samples.map (fun s => s.newsId)
  · rw [if_pos hin]
    exact ⟨rfl, fun _ => rfl, fun hni => absurd hin hni,
      fun hev => trackRow_mark_self _ hev⟩
  · rw [if_neg hin]
    exact ⟨rfl, fun hmem => absurd hmem hin, fun _ => rfl, fun _ => rfl⟩

/-- Claim C10 witness: the keying theorem applied to a batch holding only
the (n1, 600000.SH) row, evaluated at the second row — the other ticker
of the same news item, which was not in the batch and still gets
marked. -/
theorem markSamplesEvolved_keyed_by_newsId_witness :
    1 < c10Rows.length
    ∧ ∃ h2 : 1 < (markSamplesEvolved (c10Samples.map (fun s => s.newsId))
        c10Rows).length,
        ((markSamplesEvolved (c10Samples.map (fun s => s.newsId))
            c10Rows).get ⟨1, h2⟩).evolved = true := by
  have h1 : 1 < c10Rows.length := by decide
  obtain ⟨h2, -, hmark, -, -⟩ :=
    markSamplesEvolved_keyed_by_newsId c10Samples c10Rows 1 h1
  refine ⟨h1, h2, hmark ?_⟩
  show ("n1" : String) ∈ ["n1"]
  exact List.mem_cons_self _ _

end NewsTrace
